import Mathlib

/-!
Verification of the Ontology-Graph force-directed layout core.

The definitions below are a shallow embedding of the TypeScript sources:
`types.ts` (data model), the graph canvas component (reconciliation,
`getGraph`, drag handlers, click routing, simulation setup), `App.tsx`
(`handleSave`, `handleGenerate`) and `services/geminiService.ts`
(`generateOntology`).  The canvas delegates physics to the d3-force
library; the parts of d3-force the source relies on (link-force endpoint
resolution, the per-tick velocity integration with pin override) are
embedded from d3-force's documented semantics.  JavaScript numbers are
modelled as rationals (no claim under scrutiny depends on floating-point
rounding); `undefined` is modelled as `Option.none`; JavaScript's in-place
mutation is modelled by explicit state passing.
-/

namespace OntologyGraphApp

/-- The closed node category set from `types.ts`
(`'class' | 'instance' | 'literal' | 'concept'`). -/
inductive NodeType where
  | nclass
  | ninstance
  | nliteral
  | nconcept
deriving DecidableEq, Repr

/-- `OntologyNode` from `types.ts`: identity, label, category, optional
description, and mutable geometry `x y vx vy` plus pin `fx fy`.
Optional / possibly-`undefined` numeric fields are `Option Rat`; d3 treats
`fx = null` and `fx = undefined` alike (`node.fx == null`), so both are
`none`. -/
structure OntologyNode where
  id : String
  label : String
  type : NodeType
  description : Option String := none
  x : Option Rat := none
  y : Option Rat := none
  vx : Option Rat := none
  vy : Option Rat := none
  fx : Option Rat := none
  fy : Option Rat := none
deriving DecidableEq, Repr

/-- An edge endpoint as `types.ts` declares it:
`source: string | OntologyNode` — a plain node-id string, or the node
object d3 resolves it to during simulation setup. -/
inductive EdgeEnd where
  | id (s : String)
  | ref (n : OntologyNode)
deriving DecidableEq, Repr

/-- `OntologyEdge` from `types.ts`. -/
structure OntologyEdge where
  id : String
  source : EdgeEnd
  target : EdgeEnd
  label : String
deriving DecidableEq, Repr

/-- `OntologyGraph` from `types.ts`. -/
structure OntologyGraph where
  nodes : List OntologyNode
  edges : List OntologyEdge
deriving DecidableEq, Repr

/-- The node-id string an endpoint denotes:
`typeof e === 'object' ? e.id : e` (the pattern `App.tsx` uses). -/
def endId : EdgeEnd → String
  | .id s => s
  | .ref n => n.id

/-- `true` exactly when the endpoint is still the plain node-id string form. -/
def isPlainId : EdgeEnd → Bool
  | .id _ => true
  | .ref _ => false

/-- Lookup in a JavaScript `Map` built with
`new Map(nodes.map(n => [n.id, n]))`: for a duplicated id the last entry
wins, hence the search over the reversed list. -/
def mapGet (sim : List OntologyNode) (i : String) : Option OntologyNode :=
  sim.reverse.find? (fun m => m.id == i)

/-! ## Selection & Event Bridge: `getGraph` (claims C1, C9) -/

/-- `getGraph` from the canvas component's `useImperativeHandle`:
if a simulation exists, return its live nodes together with
`activeGraph.edges`; otherwise return `activeGraph` unchanged. -/
def getGraph (simNodes : Option (List OntologyNode))
    (activeGraph : OntologyGraph) : OntologyGraph :=
  match simNodes with
  | some ns => { nodes := ns, edges := activeGraph.edges }
  | none => activeGraph

/-! ## Click routing (claim C4) -/

/-- Host-side selection state (`selectedNode` / `selectedEdge` in `App.tsx`,
driven through the `onNodeSelect` / `onEdgeSelect` callbacks). -/
structure Selection where
  node : Option OntologyNode := none
  edge : Option OntologyEdge := none
deriving DecidableEq, Repr

/-- What a click lands on: a node circle, an edge line, or the empty svg
canvas. -/
inductive ClickTarget where
  | nodeShape (n : OntologyNode)
  | edgeShape (e : OntologyEdge)
  | background
deriving Repr

/-- The node-circle click handler:
`event.stopPropagation(); onNodeSelect(d); onEdgeSelect(null)`.
Returns the new selection and whether propagation was stopped. -/
def nodeClickHandler (n : OntologyNode) (_sel : Selection) : Selection × Bool :=
  ({ node := some n, edge := none }, true)

/-- The edge-line click handler:
`event.stopPropagation(); onEdgeSelect(d); onNodeSelect(null)`. -/
def edgeClickHandler (e : OntologyEdge) (_sel : Selection) : Selection × Bool :=
  ({ node := none, edge := some e }, true)

/-- The background handler registered on the svg:
`onNodeSelect(null); onEdgeSelect(null)`. -/
def backgroundClickHandler (_sel : Selection) : Selection :=
  { node := none, edge := none }

/-- DOM dispatch of one click: the shape's handler runs first; the svg
background handler runs afterwards unless the shape's handler stopped
propagation. -/
def dispatchClick (t : ClickTarget) (sel : Selection) : Selection :=
  match t with
  | .nodeShape n =>
      let r := nodeClickHandler n sel
      if r.2 then r.1 else backgroundClickHandler r.1
  | .edgeShape e =>
      let r := edgeClickHandler e sel
      if r.2 then r.1 else backgroundClickHandler r.1
  | .background => backgroundClickHandler sel

/-! ## `App.tsx` generation flow (claim C8) -/

/-- The host application state that `handleGenerate` touches. -/
structure AppState where
  graph : OntologyGraph
  selectedNode : Option OntologyNode := none
  selectedEdge : Option OntologyEdge := none
  isGenerating : Bool := false
deriving Repr

/-- `handleGenerate` from `App.tsx`.  The awaited `generateOntology` call is
passed in as its `Except` outcome.  Mirrors the source order:
`setIsGenerating(true)`, clear both selections, then
`try { setGraph(await generateOntology(prompt)) } catch { alert(...) }
finally { setIsGenerating(false) }`.  The returned `Bool` records whether
the failure alert was shown. -/
def handleGenerate (result : Except String OntologyGraph)
    (st : AppState) : AppState × Bool :=
  let st1 : AppState :=
    { st with isGenerating := true, selectedNode := none, selectedEdge := none }
  match result with
  | .ok g => ({ st1 with graph := g, isGenerating := false }, false)
  | .error _ => ({ st1 with isGenerating := false }, true)

/-! ## `geminiService.ts` (claim C10) -/

/-- The observable shape of one `generateOntology(prompt)` call: whether a
`GoogleGenAI` client was constructed, whether a `generateContent` request
was issued, and what the promise settles to. -/
structure GenCall where
  clientConstructed : Bool
  requestIssued : Bool
  result : Except String OntologyGraph
deriving Repr

/-- `generateOntology` from `services/geminiService.ts`, parameterised by
the configured `apiKey` (`process.env.API_KEY || ''`) and by the outcome of
the network/parse stage, which is opaque to this claim.  The source checks
`if (!apiKey) throw new Error(...)` before `new GoogleGenAI({ apiKey })`
and before any request; an empty string is falsy in JavaScript. -/
def generateOntology (apiKey : String)
    (networkResult : Except String OntologyGraph) : GenCall :=
  if apiKey = "" then
    { clientConstructed := false
      requestIssued := false
      result := .error "API Key is missing. Please check your environment configuration." }
  else
    { clientConstructed := true, requestIssued := true, result := networkResult }

/-! ## Graph Synchronizer: the `useEffect [graph]` reconciliation (claim C2) -/

/-- The per-node geometry merge from the canvas component's
`useEffect [graph]`: the deep copy of the incoming node keeps all its
fields (`JSON.parse(JSON.stringify(...))` is the identity on the modelled
value), then, when a live simulation node with the same id exists,
`n.x = existing.x; n.y = existing.y` unconditionally and
`if (existing.vx !== undefined) n.vx = existing.vx` (likewise `vy`). -/
def mergeNode (sim : List OntologyNode) (n : OntologyNode) : OntologyNode :=
  match mapGet sim n.id with
  | none => n
  | some existing =>
      { n with
        x := existing.x
        y := existing.y
        vx := if existing.vx.isSome then existing.vx else n.vx
        vy := if existing.vy.isSome then existing.vy else n.vy }

/-- The whole reconciliation effect: deep-copy the new snapshot, and when a
simulation already exists (`simulationRef.current`), carry the live
positions and velocities over onto nodes sharing an id.  `sim` is
`simulationRef.current.nodes()` when present. -/
def reconcile (sim : Option (List OntologyNode))
    (graph : OntologyGraph) : OntologyGraph :=
  match sim with
  | none => graph
  | some simNodes => { graph with nodes := graph.nodes.map (mergeNode simNodes) }

/-! ## Simulation setup: d3-force link resolution (claims C1, C3)

The canvas effect builds
`d3.forceSimulation(activeGraph.nodes).force("link",
d3.forceLink(activeGraph.edges).id(d => d.id)...)`.  Registering the link
force runs d3-force's link initialisation synchronously: every edge whose
`source`/`target` is not already an object is replaced, in place, by the
node object found in a `Map` keyed by node id, and a missing id throws
`new Error("node not found: " + nodeId)`.  All of this happens before the
edge/node svg elements are created and before any tick. -/

/-- d3-force's `find(nodeById, nodeId)`: the `Map` lookup that throws
`"node not found: " + nodeId` when the id is absent. -/
def findNode (nodes : List OntologyNode) (nodeId : String) :
    Except String OntologyNode :=
  match mapGet nodes nodeId with
  | some n => .ok n
  | none => .error ("node not found: " ++ nodeId)

/-- One endpoint of d3-force's link initialisation:
`if (typeof link.source !== "object") link.source = find(nodeById, link.source)`. -/
def resolveEnd (nodes : List OntologyNode) : EdgeEnd → Except String EdgeEnd
  | .ref n => .ok (.ref n)
  | .id s => (findNode nodes s).map EdgeEnd.ref

/-- d3-force's link initialisation loop over the edge array: resolve the
source then the target of each edge in order; the first missing id aborts
the whole initialisation with its error. -/
def forceLinkInit (nodes : List OntologyNode) :
    List OntologyEdge → Except String (List OntologyEdge)
  | [] => .ok []
  | e :: es =>
    match resolveEnd nodes e.source with
    | .error msg => .error msg
    | .ok s =>
      match resolveEnd nodes e.target with
      | .error msg => .error msg
      | .ok t =>
        match forceLinkInit nodes es with
        | .error msg => .error msg
        | .ok rest => .ok ({ e with source := s, target := t } :: rest)

/-- An endpoint that still names a node id with no matching node. -/
def endMissing (nodes : List OntologyNode) : EdgeEnd → Bool
  | .ref _ => false
  | .id s => !(nodes.any fun n => n.id == s)

/-- An edge one of whose endpoints references a missing node id. -/
def edgeEndpointMissing (nodes : List OntologyNode) (e : OntologyEdge) : Bool :=
  endMissing nodes e.source || endMissing nodes e.target

/-- What the canvas effect has drawn once it finishes: the edge lines
(bound to the resolved edge array) and the node groups. -/
structure Scene where
  drawnEdges : List OntologyEdge
  drawnNodes : List OntologyNode
deriving DecidableEq, Repr

/-- The canvas effect in source order: the simulation and its link force
are set up first (resolving every edge endpoint, possibly throwing), and
only then are the svg elements for edges and nodes created. -/
def setupCanvas (g : OntologyGraph) : Except String Scene :=
  match forceLinkInit g.nodes g.edges with
  | .error msg => .error msg
  | .ok resolved => .ok { drawnEdges := resolved, drawnNodes := g.nodes }

/-- The observable `activeGraph` value after the canvas effect has run:
d3's link initialisation has mutated `activeGraph.edges` in place, so on
success the state holds the resolved edge array. -/
def afterLinkInit (g : OntologyGraph) : OntologyGraph :=
  match forceLinkInit g.nodes g.edges with
  | .ok es => { g with edges := es }
  | .error _ => g

/-! ## Force Simulation Engine: d3-force tick and drag (claims C5, C6)

d3-force's `simulation.tick()` first lets every registered force adjust
the node array, then integrates: for each node, if `node.fx == null` then
`node.x += node.vx *= velocityDecay`, otherwise `node.x = node.fx` and
`node.vx = 0` (likewise for `y`).  The force pass is kept abstract (the
canvas registers link, many-body, centering and collision forces); the
integration step is what decides the pin behaviour. -/

/-- The d3 simulation state the canvas owns: the live node array, the
temperature `alpha`, its target and decay, the velocity decay, and whether
the internal stepper is running.  Defaults are d3's (`alphaDecay` is d3's
`1 - 0.001^(1/300) ≈ 0.0228`, kept here as a rational parameter;
`velocityDecay` defaults to `0.4`). -/
structure SimState where
  nodes : List OntologyNode
  alpha : Rat := 1
  alphaTarget : Rat := 0
  alphaDecay : Rat := 1/50
  velocityDecay : Rat := 2/5
  running : Bool := true
deriving DecidableEq, Repr

/-- d3's per-node integration step inside `tick()`: a pinned coordinate is
overwritten with the pin value and its velocity zeroed; a free coordinate
integrates the decayed velocity. -/
def integrateNode (velocityDecay : Rat) (n : OntologyNode) : OntologyNode :=
  let n1 :=
    match n.fx with
    | none =>
        let vx := n.vx.getD 0 * velocityDecay
        { n with vx := some vx, x := some (n.x.getD 0 + vx) }
    | some x0 => { n with x := some x0, vx := some 0 }
  match n1.fy with
  | none =>
      let vy := n1.vy.getD 0 * velocityDecay
      { n1 with vy := some vy, y := some (n1.y.getD 0 + vy) }
  | some y0 => { n1 with y := some y0, vy := some 0 }

/-- One `tick()` of the d3 simulation: advance alpha toward its target,
run the composed force pass `F` (which may touch positions and
velocities), then integrate every node. -/
def tickOnce (F : Rat → List OntologyNode → List OntologyNode)
    (s : SimState) : SimState :=
  let alpha := s.alpha + (s.alphaTarget - s.alpha) * s.alphaDecay
  { s with
    alpha := alpha
    nodes := (F alpha s.nodes).map (integrateNode s.velocityDecay) }

/-- `n` consecutive ticks. -/
def tickN (F : Rat → List OntologyNode → List OntologyNode) :
    Nat → SimState → SimState
  | 0, s => s
  | n + 1, s => tickOnce F (tickN F n s)

/-- The identity and pin fields of a node — the fields no d3 force writes. -/
def pinView (n : OntologyNode) : String × Option Rat × Option Rat :=
  (n.id, n.fx, n.fy)

/-- In-place mutation of the one dragged node (d3 hands the drag handlers
the node record itself; here the node is addressed by its id). -/
def updateNode (s : SimState) (i : String)
    (f : OntologyNode → OntologyNode) : SimState :=
  { s with nodes := s.nodes.map fun n => if n.id == i then f n else n }

/-- The node with the given id, as the canvas data join addresses it. -/
def findById (ns : List OntologyNode) (i : String) : Option OntologyNode :=
  ns.find? fun n => n.id == i

/-- `dragstarted` from the canvas: when no other gesture is active,
`simulation.alphaTarget(0.3).restart()`; then `d.fx = d.x; d.fy = d.y`. -/
def dragstarted (eventActive : Bool) (i : String) (s : SimState) : SimState :=
  let s1 := if eventActive then s
            else { s with alphaTarget := 3/10, running := true }
  updateNode s1 i fun d => { d with fx := d.x, fy := d.y }

/-- `dragged` from the canvas: `d.fx = event.x; d.fy = event.y`. -/
def dragged (ex ey : Rat) (i : String) (s : SimState) : SimState :=
  updateNode s i fun d => { d with fx := some ex, fy := some ey }

/-- `dragended` from the canvas: when no other gesture is active,
`simulation.alphaTarget(0)`; then `d.fx = null; d.fy = null`. -/
def dragended (eventActive : Bool) (i : String) (s : SimState) : SimState :=
  let s1 := if eventActive then s else { s with alphaTarget := 0 }
  updateNode s1 i fun d => { d with fx := none, fy := none }

/-! ## Persistence cleaning: `handleSave` (claim C7) -/

/-- The node cleaning inside `App.tsx`'s `handleSave`: destructure
`{ id, label, type, description, x, y }` and keep `x`/`y` only when they
are numbers — velocity and pin fields are never copied over. -/
def cleanNode (n : OntologyNode) : OntologyNode :=
  { id := n.id, label := n.label, type := n.type,
    description := n.description, x := n.x, y := n.y }

/-- The edge cleaning inside `handleSave`: keep id and label, and collapse
each endpoint to its node-id string
(`typeof e.source === 'object' ? e.source.id : e.source`). -/
def cleanEdge (e : OntologyEdge) : OntologyEdge :=
  { id := e.id, source := .id (endId e.source),
    target := .id (endId e.target), label := e.label }

/-- The cleaned snapshot `handleSave` persists, built from the graph the
canvas exported. -/
def handleSaveClean (g : OntologyGraph) : OntologyGraph :=
  { nodes := g.nodes.map cleanNode, edges := g.edges.map cleanEdge }

/-! ## Formalised claim predicates and demonstration inputs -/

/-- The per-node geometry condition exactly as claim C2 states it: a node
sharing an id with the old working copy has position AND velocity copied
from the old node, and a node with a new id has position and velocity
unset. -/
def nodeGeometryAsClaimed (sim : List OntologyNode) (n : OntologyNode) : Bool :=
  match mapGet sim n.id with
  | some old => n.x == old.x && n.y == old.y && n.vx == old.vx && n.vy == old.vy
  | none => n.x == none && n.y == none && n.vx == none && n.vy == none

/-- The old live node carried over for the demonstration inputs: it has a
settled position but its velocity components were never initialised. -/
def demoOldA : OntologyNode :=
  { id := "a", label := "A", type := .nclass, x := some 1, y := some 2 }

/-- A new snapshot that shares id `a` with the live copy and adds node `b`
carrying a stored position (the shape `handleLoad` feeds in, since saves
persist `x`/`y`), with the shared node also carrying snapshot velocity. -/
def demoSnapshot : OntologyGraph :=
  { nodes :=
      [ { id := "a", label := "A", type := .nclass,
          x := some 10, y := some 20, vx := some 3, vy := some 4 },
        { id := "b", label := "B", type := .nclass, x := some 5, y := some 6 } ],
    edges := [] }

/-- A small well-formed demonstration graph's first node. -/
def demoNodeA : OntologyNode := { id := "a", label := "A", type := .nclass }

/-- Second demonstration node. -/
def demoNodeB : OntologyNode := { id := "b", label := "B", type := .nclass }

/-- The demonstration graph handed to the canvas: nodes `a`, `b` and one
edge between them, created with plain id endpoints. -/
def demoGraph : OntologyGraph :=
  { nodes := [demoNodeA, demoNodeB],
    edges := [ { id := "e1", source := .id "a", target := .id "b", label := "is_a" } ] }

/-- The demonstration graph's edge array as d3's link initialisation
leaves it: both endpoints resolved to node objects. -/
def demoResolvedEdges : List OntologyEdge :=
  [ { id := "e1", source := .ref demoNodeA, target := .ref demoNodeB, label := "is_a" } ]

/-- A graph whose only edge targets a node id that does not exist. -/
def demoDanglingGraph : OntologyGraph :=
  { nodes := [demoNodeA],
    edges := [ { id := "e1", source := .id "a", target := .id "ghost", label := "is_a" } ] }

/-- A node with a defined position and velocity, ready to be dragged. -/
def demoDragNode : OntologyNode :=
  { id := "a", label := "A", type := .nclass, x := some 1, y := some 2,
    vx := some 4, vy := some 6 }

/-- A one-node simulation for the drag demonstration. -/
def demoDragSim : SimState := { nodes := [demoDragNode] }

/-- A node pinned at (5, 7), away from its current position, with nonzero
velocity. -/
def demoPinNode : OntologyNode :=
  { id := "a", label := "A", type := .nclass, x := some 0, y := some 0,
    vx := some 1, vy := some 1, fx := some 5, fy := some 7 }

/-- A one-node simulation holding the pinned node. -/
def demoPinSim : SimState := { nodes := [demoPinNode] }

/-- The pinned node as two ticks leave it: parked exactly at its pin. -/
def demoPinAfter : OntologyNode :=
  { id := "a", label := "A", type := .nclass, x := some 5, y := some 7,
    vx := some 0, vy := some 0, fx := some 5, fy := some 7 }

/-! ## Helper lemmas -/

/-- A `mergeNode` result keeps the incoming node's id. -/
theorem mergeNode_id (sim : List OntologyNode) (n : OntologyNode) :
    (mergeNode sim n).id = n.id := by
  cases h : mapGet sim n.id <;> simp [mergeNode, h]

/-- A successfully resolved endpoint is a node-object reference, denotes
the same node id as before, and proves the id was present. -/
theorem resolveEnd_ok (nodes : List OntologyNode) (en r : EdgeEnd)
    (h : resolveEnd nodes en = Except.ok r) :
    (∃ n, r = EdgeEnd.ref n) ∧ endId r = endId en ∧
      endMissing nodes en = false := by
  cases en with
  | ref n =>
      simp only [resolveEnd] at h
      cases h
      exact ⟨⟨n, rfl⟩, rfl, rfl⟩
  | id s =>
      simp only [resolveEnd] at h
      cases hf : findNode nodes s with
      | error msg => rw [hf] at h; cases h
      | ok n =>
          rw [hf] at h
          cases h
          have hfind : nodes.reverse.find? (fun m => m.id == s) = some n := by
            simp only [findNode, mapGet] at hf
            cases hg : nodes.reverse.find? (fun m => m.id == s) with
            | none => rw [hg] at hf; cases hf
            | some m => rw [hg] at hf; cases hf; rfl
          have hid : n.id = s := by
            have := List.find?_some hfind
            exact eq_of_beq this
          have hmem : n ∈ nodes := List.mem_reverse.mp (List.mem_of_find?_eq_some hfind)
          refine ⟨⟨n, rfl⟩, by simp [endId, hid], ?_⟩
          simp only [endMissing, Bool.not_eq_false']
          exact List.any_eq_true.mpr ⟨n, hmem, by simp [hid]⟩

/-- What a successful d3 link initialisation guarantees: no edge was
dropped, every input edge's endpoints existed, every output edge holds
node-object references, and ids/labels survive unchanged (the resolved
endpoints denote the original ids). -/
theorem forceLinkInit_ok_spec (nodes : List OntologyNode) :
    ∀ edges res, forceLinkInit nodes edges = Except.ok res →
      res.length = edges.length ∧
      (∀ e ∈ edges, edgeEndpointMissing nodes e = false) ∧
      (∀ e ∈ res, (∃ n, e.source = EdgeEnd.ref n) ∧
        (∃ n, e.target = EdgeEnd.ref n)) ∧
      res.map (fun e => (e.id, endId e.source, endId e.target, e.label))
        = edges.map (fun e => (e.id, endId e.source, endId e.target, e.label)) := by
  intro edges
  induction edges with
  | nil =>
      intro res h
      simp only [forceLinkInit] at h
      cases h
      exact ⟨rfl, by simp, by simp, by simp⟩
  | cons e es ih =>
      intro res h
      simp only [forceLinkInit] at h
      cases hs : resolveEnd nodes e.source with
      | error msg => rw [hs] at h; cases h
      | ok s =>
      rw [hs] at h
      cases ht : resolveEnd nodes e.target with
      | error msg => rw [ht] at h; cases h
      | ok t =>
      rw [ht] at h
      cases hr : forceLinkInit nodes es with
      | error msg => rw [hr] at h; cases h
      | ok rest =>
      rw [hr] at h
      cases h
      obtain ⟨hsr, hse, hsm⟩ := resolveEnd_ok nodes e.source s hs
      obtain ⟨htr, hte, htm⟩ := resolveEnd_ok nodes e.target t ht
      obtain ⟨ihl, ihmiss, ihref, ihmap⟩ := ih rest hr
      refine ⟨by simp [ihl], ?_, ?_, ?_⟩
      · intro e' he'
        rcases List.mem_cons.mp he' with he' | he'
        · subst he'
          simp [edgeEndpointMissing, hsm, htm]
        · exact ihmiss e' he'
      · intro e' he'
        rcases List.mem_cons.mp he' with he' | he'
        · subst he'
          exact ⟨hsr, htr⟩
        · exact ihref e' he'
      · simp only [List.map_cons, ihmap, hse, hte]

/-- Integration never touches a node's identity or pin fields. -/
theorem pinView_integrateNode (vd : Rat) (n : OntologyNode) :
    pinView (integrateNode vd n) = pinView n := by
  cases hx : n.fx <;> cases hy : n.fy <;>
    simp [integrateNode, pinView, hx, hy]

/-- One tick preserves every node's identity and pin fields, provided the
force pass does (as all d3 forces do). -/
theorem tickOnce_pinView (F : Rat → List OntologyNode → List OntologyNode)
    (hF : ∀ a ns, (F a ns).map pinView = ns.map pinView) (s : SimState) :
    (tickOnce F s).nodes.map pinView = s.nodes.map pinView := by
  show (((F _ s.nodes).map (integrateNode s.velocityDecay)).map pinView)
    = s.nodes.map pinView
  rw [List.map_map]
  calc (F _ s.nodes).map (pinView ∘ integrateNode s.velocityDecay)
      = (F _ s.nodes).map pinView :=
        List.map_congr_left fun n _ => pinView_integrateNode s.velocityDecay n
    _ = s.nodes.map pinView := hF _ s.nodes

/-- Any number of ticks preserves every node's identity and pin fields. -/
theorem tickN_pinView (F : Rat → List OntologyNode → List OntologyNode)
    (hF : ∀ a ns, (F a ns).map pinView = ns.map pinView) (s : SimState) :
    ∀ n, (tickN F n s).nodes.map pinView = s.nodes.map pinView := by
  intro n
  induction n with
  | zero => rfl
  | succ m ih => rw [tickN, tickOnce_pinView F hF, ih]

/-- The canvas data join addressed by id commutes with the drag handlers'
single-node update, for any per-node change that keeps the id. -/
theorem findById_updateNode (s : SimState) (i : String)
    (f : OntologyNode → OntologyNode) (hf : ∀ n, (f n).id = n.id) :
    findById (updateNode s i f).nodes i = (findById s.nodes i).map f := by
  show (s.nodes.map fun n => if n.id == i then f n else n).find?
      (fun n => n.id == i)
    = (s.nodes.find? fun n => n.id == i).map f
  generalize s.nodes = ns
  induction ns with
  | nil => rfl
  | cons n ns ih =>
      by_cases h : (n.id == i) = true
      · have hfn : ((f n).id == i) = true := by rw [hf n]; exact h
        simp only [List.map_cons, if_pos h]
        rw [List.find?_cons_of_pos (p := fun n : OntologyNode => n.id == i) _ hfn,
            List.find?_cons_of_pos (p := fun n : OntologyNode => n.id == i) _ h]
        rfl
      · simp only [List.map_cons, if_neg h]
        rw [List.find?_cons_of_neg (p := fun n : OntologyNode => n.id == i) _ h,
            List.find?_cons_of_neg (p := fun n : OntologyNode => n.id == i) _ h, ih]

/-! ## Claim C1 -/

/-- Claim C1 counterexample: once the canvas effect has run on the
demonstration graph, the graph returned by `getGraph` contains an edge
whose `source`/`target` are the resolved node objects, not plain node-id
strings — the claimed export fidelity fails on the code. -/
theorem getGraph_plain_id_claim_false :
    ¬ (∀ e ∈ (getGraph (some (afterLinkInit demoGraph).nodes)
                (afterLinkInit demoGraph)).edges,
        isPlainId e.source = true ∧ isPlainId e.target = true) := by decide

/-- Claim C1 (amended): `getGraph` hands out the edge records exactly as
`activeGraph` holds them; once the link force has resolved them, every
such edge's `source`/`target` is a node-object reference (never a plain
id string), though the references still denote the original ids — plain-id
form is only restored by the persistence layer's cleaning. -/
theorem getGraph_returns_resolved_edges (g : OntologyGraph)
    (simNodes : List OntologyNode) (resolved : List OntologyEdge)
    (h : forceLinkInit g.nodes g.edges = Except.ok resolved) :
    getGraph (some simNodes) { g with edges := resolved }
      = { nodes := simNodes, edges := resolved } ∧
    (∀ e ∈ resolved, (∃ n, e.source = EdgeEnd.ref n) ∧
      (∃ n, e.target = EdgeEnd.ref n)) ∧
    resolved.map (fun e => (e.id, endId e.source, endId e.target, e.label))
      = g.edges.map (fun e => (e.id, endId e.source, endId e.target, e.label)) := by
  obtain ⟨_, _, href, hmap⟩ := forceLinkInit_ok_spec g.nodes g.edges resolved h
  exact ⟨rfl, href, hmap⟩

/-- Witness for the amended claim C1 at the demonstration graph. -/
theorem getGraph_returns_resolved_edges_witness :
    getGraph (some demoGraph.nodes) { demoGraph with edges := demoResolvedEdges }
      = { nodes := demoGraph.nodes, edges := demoResolvedEdges } ∧
    (∀ e ∈ demoResolvedEdges, (∃ n, e.source = EdgeEnd.ref n) ∧
      (∃ n, e.target = EdgeEnd.ref n)) ∧
    demoResolvedEdges.map (fun e => (e.id, endId e.source, endId e.target, e.label))
      = demoGraph.edges.map (fun e => (e.id, endId e.source, endId e.target, e.label)) :=
  getGraph_returns_resolved_edges demoGraph demoGraph.nodes demoResolvedEdges rfl

/-! ## Claim C2 -/

/-- Claim C2 counterexample: reconciling the demonstration snapshot against
a live copy holding only node `a` leaves node `b`'s snapshot position in
place (x = 5, not unset) and keeps node `a`'s snapshot velocity (the old
node's velocity being undefined), so the claimed geometry condition fails
on the code. -/
theorem reconcile_unset_claim_false :
    ¬ (∀ n ∈ (reconcile (some [demoOldA]) demoSnapshot).nodes,
        nodeGeometryAsClaimed [demoOldA] n = true) := by decide

/-- Claim C2 (amended): reconciliation rebuilds the edges from the snapshot
and keeps the node sequence's ids; a node sharing an id with the live copy
gets the live position unconditionally and the live velocity only where
the live velocity component is defined; a node with a new id passes
through with all its snapshot fields (position included) unchanged. -/
theorem reconcile_preserves_live_geometry (sim : List OntologyNode)
    (g : OntologyGraph) :
    (reconcile (some sim) g).edges = g.edges ∧
    (reconcile (some sim) g).nodes.map OntologyNode.id
      = g.nodes.map OntologyNode.id ∧
    (∀ n ∈ (reconcile (some sim) g).nodes, ∀ old, mapGet sim n.id = some old →
        n.x = old.x ∧ n.y = old.y ∧
        (old.vx.isSome → n.vx = old.vx) ∧ (old.vy.isSome → n.vy = old.vy)) ∧
    (∀ (k : Nat) (n : OntologyNode), g.nodes[k]? = some n → mapGet sim n.id = none →
        (reconcile (some sim) g).nodes[k]? = some n) := by
  refine ⟨rfl, ?_, ?_, ?_⟩
  · show (g.nodes.map (mergeNode sim)).map OntologyNode.id
      = g.nodes.map OntologyNode.id
    rw [List.map_map]
    exact List.map_congr_left fun n _ => mergeNode_id sim n
  · intro n hn old hold
    obtain ⟨m, _, hm⟩ := List.mem_map.mp hn
    have hid : n.id = m.id := hm ▸ mergeNode_id sim m
    rw [hid] at hold
    cases h : mapGet sim m.id with
    | none => rw [h] at hold; cases hold
    | some existing =>
        rw [h] at hold
        cases hold
        subst hm
        refine ⟨by simp [mergeNode, h], by simp [mergeNode, h], ?_, ?_⟩
        · intro hvx
          simp [mergeNode, h, hvx]
        · intro hvy
          simp [mergeNode, h, hvy]
  · intro k n hk hnone
    show (g.nodes.map (mergeNode sim))[k]? = some n
    rw [List.getElem?_map, hk]
    simp [mergeNode, hnone]

/-! ## Claim C3 -/

/-- Claim C3: handing the simulation a graph with an edge whose endpoint id
matches no node makes the setup fail fast with an error — no scene is ever
drawn, so the edge is neither silently dropped nor does rendering crash
mid-render. -/
theorem dangling_edge_fails_fast (g : OntologyGraph)
    (h : ∃ e ∈ g.edges, edgeEndpointMissing g.nodes e = true) :
    (∃ msg, setupCanvas g = Except.error msg) ∧
    (∀ scene, setupCanvas g ≠ Except.ok scene) := by
  obtain ⟨e, he, hbad⟩ := h
  cases hres : forceLinkInit g.nodes g.edges with
  | ok res =>
      obtain ⟨_, hmiss, _, _⟩ := forceLinkInit_ok_spec g.nodes g.edges res hres
      rw [hmiss e he] at hbad
      cases hbad
  | error msg =>
      have hset : setupCanvas g = Except.error msg := by
        simp [setupCanvas, hres]
      exact ⟨⟨msg, hset⟩, fun scene hsc => by rw [hset] at hsc; cases hsc⟩

/-- Witness for claim C3: the dangling demonstration graph is rejected. -/
theorem dangling_edge_fails_fast_witness :
    (∃ msg, setupCanvas demoDanglingGraph = Except.error msg) ∧
    (∀ scene, setupCanvas demoDanglingGraph ≠ Except.ok scene) :=
  dangling_edge_fails_fast demoDanglingGraph (by decide)

/-! ## Claims C4, C8, C9, C10 -/

/-- Claim C4: after any single click event, a node click yields exactly
(that node, no edge), an edge click yields (no node, that edge), a
background click clears both; and whatever was clicked, node and edge
selection are never both set — the shape handlers stop propagation, so the
background handler cannot run after them. -/
theorem click_selection_exclusive (t : ClickTarget) (sel : Selection) :
    dispatchClick t sel =
      (match t with
       | .nodeShape n => { node := some n, edge := none }
       | .edgeShape e => { node := none, edge := some e }
       | .background => { node := none, edge := none }) ∧
    ((dispatchClick t sel).node = none ∨ (dispatchClick t sel).edge = none) := by
  cases t <;>
    simp [dispatchClick, nodeClickHandler, edgeClickHandler, backgroundClickHandler]

/-- Claim C8: the graph shown after `handleGenerate` is the old graph
exactly when generation failed (and then the failure alert is shown), and
the freshly generated graph exactly when it succeeded (and then no alert
is shown). -/
theorem handleGenerate_failure_preserves_graph
    (result : Except String OntologyGraph) (st : AppState) :
    (handleGenerate result st).1.graph =
      (match result with
       | .ok g => g
       | .error _ => st.graph) ∧
    (handleGenerate result st).2 =
      (match result with
       | .ok _ => false
       | .error _ => true) := by
  cases result <;> simp [handleGenerate]

/-- Claim C9: calling the export accessor when no simulation exists returns
the last-known graph (`activeGraph`) unchanged; the accessor is a total
function, so no crash is possible. -/
theorem getGraph_without_simulation (activeGraph : OntologyGraph) :
    getGraph none activeGraph = activeGraph := rfl

/-- Claim C10: with an empty API key, `generateOntology` rejects with the
missing-key message whatever the network stage would have produced; no
client is constructed and no request is issued, and the call never
resolves to a graph. -/
theorem generateOntology_empty_key (networkResult : Except String OntologyGraph) :
    generateOntology "" networkResult =
      { clientConstructed := false
        requestIssued := false
        result := .error "API Key is missing. Please check your environment configuration." } := by
  simp [generateOntology]

/-! ## Claim C5 -/

/-- Claim C5: for a node present in the simulation, drag-start (with no
other gesture active) raises the alpha target to 0.3, restarts the
stepper and pins the node at its current position; each drag-move retargets
the pin to the pointer; drag-end returns the alpha target to zero and
clears the pin; and with the pin cleared the next integration step moves
the node by its decayed velocity instead of holding it. -/
theorem drag_lifecycle (s : SimState) (i : String) (d : OntologyNode)
    (ex ey : Rat) (hd : findById s.nodes i = some d) :
    ((dragstarted false i s).alphaTarget = 3/10 ∧
     (dragstarted false i s).running = true ∧
     findById (dragstarted false i s).nodes i
       = some { d with fx := d.x, fy := d.y }) ∧
    (findById (dragged ex ey i s).nodes i
       = some { d with fx := some ex, fy := some ey }) ∧
    ((dragended false i s).alphaTarget = 0 ∧
     findById (dragended false i s).nodes i
       = some { d with fx := none, fy := none }) ∧
    ((integrateNode s.velocityDecay { d with fx := none, fy := none }).x
       = some (d.x.getD 0 + d.vx.getD 0 * s.velocityDecay)) := by
  refine ⟨⟨rfl, rfl, ?_⟩, ?_, ⟨rfl, ?_⟩, ?_⟩
  · show findById (updateNode { s with alphaTarget := 3/10, running := true } i
        (fun d => { d with fx := d.x, fy := d.y })).nodes i
      = some { d with fx := d.x, fy := d.y }
    rw [findById_updateNode _ i (fun d => { d with fx := d.x, fy := d.y })
          (fun _ => rfl),
        show findById ({ s with alphaTarget := 3/10, running := true } : SimState).nodes i = some d from hd]
    rfl
  · show findById (updateNode s i
        (fun d => { d with fx := some ex, fy := some ey })).nodes i
      = some { d with fx := some ex, fy := some ey }
    rw [findById_updateNode _ i (fun d => { d with fx := some ex, fy := some ey })
          (fun _ => rfl), hd]
    rfl
  · show findById (updateNode { s with alphaTarget := 0 } i
        (fun d => { d with fx := none, fy := none })).nodes i
      = some { d with fx := none, fy := none }
    rw [findById_updateNode _ i (fun d => { d with fx := none, fy := none })
          (fun _ => rfl),
        show findById ({ s with alphaTarget := 0 } : SimState).nodes i = some d from hd]
    rfl
  · simp [integrateNode]

/-- Witness for claim C5: the full drag lifecycle evaluated on the
one-node demonstration simulation, dragging to (100, 100). -/
theorem drag_lifecycle_witness :
    ((dragstarted false "a" demoDragSim).alphaTarget = 3/10 ∧
     (dragstarted false "a" demoDragSim).running = true ∧
     findById (dragstarted false "a" demoDragSim).nodes "a"
       = some { demoDragNode with fx := demoDragNode.x, fy := demoDragNode.y }) ∧
    (findById (dragged 100 100 "a" demoDragSim).nodes "a"
       = some { demoDragNode with fx := some 100, fy := some 100 }) ∧
    ((dragended false "a" demoDragSim).alphaTarget = 0 ∧
     findById (dragended false "a" demoDragSim).nodes "a"
       = some { demoDragNode with fx := none, fy := none }) ∧
    ((integrateNode demoDragSim.velocityDecay
        { demoDragNode with fx := none, fy := none }).x
       = some (demoDragNode.x.getD 0
           + demoDragNode.vx.getD 0 * demoDragSim.velocityDecay)) :=
  drag_lifecycle demoDragSim "a" demoDragNode 100 100 rfl

/-! ## Claim C6 -/

/-- Claim C6: once a node's pin fields hold (x0, y0), advancing the
simulation any positive number of ticks reports that node's position as
exactly (x0, y0), with the pin still in place — for every force pass that,
like all of d3's forces, never writes the id or pin fields. -/
theorem pinned_node_position_fixed
    (F : Rat → List OntologyNode → List OntologyNode)
    (hF : ∀ a ns, (F a ns).map pinView = ns.map pinView)
    (s : SimState) (k : Nat) (d : OntologyNode) (x0 y0 : Rat)
    (hk : s.nodes[k]? = some d) (hx : d.fx = some x0) (hy : d.fy = some y0)
    (n : Nat) (hn : 1 ≤ n) (d2 : OntologyNode)
    (hk2 : (tickN F n s).nodes[k]? = some d2) :
    d2.x = some x0 ∧ d2.y = some y0 ∧ d2.fx = some x0 ∧ d2.fy = some y0 := by
  obtain ⟨m, rfl⟩ : ∃ m, n = m + 1 := ⟨n - 1, by omega⟩
  have hpv : (tickN F m s).nodes.map pinView = s.nodes.map pinView :=
    tickN_pinView F hF s m
  have hk2' : ((F (tickOnce F (tickN F m s)).alpha (tickN F m s).nodes).map
      (integrateNode (tickN F m s).velocityDecay))[k]? = some d2 := hk2
  rw [List.getElem?_map] at hk2'
  obtain ⟨e, he, rfl⟩ := Option.map_eq_some'.mp hk2'
  have h1 : ((F (tickOnce F (tickN F m s)).alpha (tickN F m s).nodes).map
      pinView)[k]? = (s.nodes.map pinView)[k]? := by
    rw [hF _ (tickN F m s).nodes, hpv]
  rw [List.getElem?_map, List.getElem?_map, he, hk] at h1
  have hpe : pinView e = pinView d := by
    simpa using h1
  have hefx : e.fx = some x0 := by
    have h2 := congrArg (fun p => p.2.1) hpe
    simpa [pinView, hx] using h2
  have hefy : e.fy = some y0 := by
    have h2 := congrArg (fun p => p.2.2) hpe
    simpa [pinView, hy] using h2
  simp [integrateNode, hefx, hefy]

/-- Witness for claim C6: two ticks of the pinned demonstration simulation
leave the node exactly at its pin (5, 7). -/
theorem pinned_node_position_fixed_witness :
    demoPinAfter.x = some 5 ∧ demoPinAfter.y = some 7 ∧
    demoPinAfter.fx = some 5 ∧ demoPinAfter.fy = some 7 :=
  pinned_node_position_fixed (fun _ ns => ns) (fun _ _ => rfl) demoPinSim 0
    demoPinNode 5 7 rfl rfl rfl 2 (by decide) demoPinAfter (by decide)

/-! ## Claim C7 -/

/-- Claim C7: the snapshot `handleSave` cleans for persistence stores every
edge with plain node-id strings as source and target (denoting the same
ids as the exported edges), keeps every node's id, label, type,
description and position, and omits velocity and pin state from every
node. -/
theorem handleSave_persisted_form (g : OntologyGraph) :
    (∀ e ∈ (handleSaveClean g).edges,
        isPlainId e.source = true ∧ isPlainId e.target = true) ∧
    ((handleSaveClean g).edges.map
        (fun e => (e.id, endId e.source, endId e.target, e.label))
      = g.edges.map (fun e => (e.id, endId e.source, endId e.target, e.label))) ∧
    (∀ nd ∈ (handleSaveClean g).nodes,
        nd.vx = none ∧ nd.vy = none ∧ nd.fx = none ∧ nd.fy = none) ∧
    ((handleSaveClean g).nodes.map
        (fun nd => (nd.id, nd.label, nd.type, nd.description, nd.x, nd.y))
      = g.nodes.map
        (fun nd => (nd.id, nd.label, nd.type, nd.description, nd.x, nd.y))) := by
  refine ⟨?_, ?_, ?_, ?_⟩
  · intro e he
    obtain ⟨e0, _, rfl⟩ := List.mem_map.mp he
    simp [cleanEdge, isPlainId]
  · show (g.edges.map cleanEdge).map _ = _
    rw [List.map_map]
    exact List.map_congr_left fun e _ => by simp [cleanEdge, endId]
  · intro nd hnd
    obtain ⟨n0, _, rfl⟩ := List.mem_map.mp hnd
    simp [cleanNode]
  · show (g.nodes.map cleanNode).map _ = _
    rw [List.map_map]
    exact List.map_congr_left fun nd _ => by simp [cleanNode]

end OntologyGraphApp
